import Mathlib

/-!
Formal model of `src/input/json.rs` from the rouille repository:
the JSON request-body decoder (`json_input`) and its NUL-rejection
tree walk (`check_null`), embedded shallowly in Lean.
-/

set_option maxHeartbeats 1000000

namespace RouilleJson

/-- Cause carried by the `IoError` variant (external `std::io::Error`),
modelled as its message. -/
abbrev IoCause := String

/-- Cause carried by the `ParseError` variant (external `serde_json::Error`),
modelled as its message. -/
abbrev ParseCause := String

/-- `JsonError` from `src/input/json.rs` lines 47-62: the closed error
taxonomy of the pipeline. -/
inductive JsonError where
  | bodyAlreadyExtracted
  | wrongContentType
  | nullPresent
  | ioError (e : IoCause)
  | parseError (e : ParseCause)
deriving DecidableEq, Repr

/-- `serde_json::Value`: the generic JSON value tree.  Numbers are modelled
as integers; their payload is irrelevant to every claim. -/
inductive Value where
  | null
  | bool (b : Bool)
  | num (n : Int)
  | str (s : String)
  | arr (items : List Value)
  | obj (entries : List (String × Value))
deriving Repr

/-- The NUL code point U+0000. -/
def nulChar : Char := Char.ofNat 0

/-- Rust `s.find("\0").is_some()`: whether the string contains the NUL
code point.  Searching for the one-character pattern `"\0"` succeeds
exactly when some character of `s` is NUL. -/
def strHasNul (s : String) : Bool := s.data.contains nulChar

mutual

/-- `check_null` from `src/input/json.rs` lines 106-129: depth-first walk
rejecting any string value or object key that contains a NUL code point,
returning the input value unchanged on success. -/
def check_null : Value → Except JsonError Value
  | Value.str s =>
      if strHasNul s then Except.error JsonError.nullPresent
      else Except.ok (Value.str s)
  | Value.arr a =>
      match check_null_list a with
      | Except.error e => Except.error e
      | Except.ok _ => Except.ok (Value.arr a)
  | Value.obj o =>
      match check_null_entries o with
      | Except.error e => Except.error e
      | Except.ok _ => Except.ok (Value.obj o)
  | v => Except.ok v

/-- The `for element in a { check_null(element)?; }` loop of the
`Value::Array` arm. -/
def check_null_list : List Value → Except JsonError Unit
  | [] => Except.ok ()
  | x :: xs =>
      match check_null x with
      | Except.error e => Except.error e
      | Except.ok _ => check_null_list xs

/-- The `for (k, v) in o { if k.find("\0").is_some() { return Err(..) }
check_null(v)?; }` loop of the `Value::Object` arm. -/
def check_null_entries : List (String × Value) → Except JsonError Unit
  | [] => Except.ok ()
  | (k, v) :: rest =>
      if strHasNul k then Except.error JsonError.nullPresent
      else
        match check_null v with
        | Except.error e => Except.error e
        | Except.ok _ => check_null_entries rest

end

mutual

/-- Specification predicate: some string in the tree — a string value or
an object key, at any nesting depth — contains the NUL code point. -/
def nulAnywhere : Value → Bool
  | Value.str s => strHasNul s
  | Value.arr a => nulAnywhereList a
  | Value.obj o => nulAnywhereEntries o
  | _ => false

/-- Some element of the list contains a NUL somewhere. -/
def nulAnywhereList : List Value → Bool
  | [] => false
  | x :: xs => nulAnywhere x || nulAnywhereList xs

/-- Some key has a NUL, or some value contains one somewhere. -/
def nulAnywhereEntries : List (String × Value) → Bool
  | [] => false
  | (k, v) :: rest => strHasNul k || nulAnywhere v || nulAnywhereEntries rest

end

/-- The request body, a byte stream, modelled as the list of bytes it
yields. -/
abbrev ByteStream := List Nat

/-- The observable state of the external `Request` collaborator, as seen by
`json_input`: the result of `request.header("Content-Type")` and the result
of `request.data()` (`none` when the body was already extracted). -/
structure Request where
  contentType : Option String
  data : Option ByteStream
deriving Repr

/-- Modelled from the spec: the one-shot body acquisition
(`take_body_once() -> Option<ByteStream>` returning `None` on a second
call) of the external `Request` collaborator, which is not part of the
source slice.  It yields the current body stream and the request state
after the extraction, in which the stream is gone. -/
def take_body (req : Request) : Option ByteStream × Request :=
  (req.data, { req with data := none })

/-- Rust `str::starts_with(pat)`: the pattern is a literal,
case-sensitive beginning of the string.  Modelled on the decoded
character sequences, which for valid UTF-8 agrees with the byte-level
test. -/
def starts_with (s pat : String) : Bool := List.isPrefixOf pat.data s.data

/-- `json_input` from `src/input/json.rs` lines 158-179, parametrised by
its two external collaborators: `serde_json::from_reader` (parse the body
bytes into a `Value`) and `serde_json::from_value::<O>` (decode the tree
into the target type).  Both report failures as `serde_json::Error`, which
the `From` impl at lines 70-74 converts into `JsonError::ParseError`. -/
def json_input {O : Type} (from_reader : ByteStream → Except ParseCause Value)
    (from_value : Value → Except ParseCause O) (request : Request) :
    Except JsonError O :=
  match request.contentType with
  | some header =>
      if !(starts_with header "application/json") then
        Except.error JsonError.wrongContentType
      else
        match request.data with
        | some b =>
            match from_reader b with
            | Except.error e => Except.error (JsonError.parseError e)
            | Except.ok v =>
                match check_null v with
                | Except.error e => Except.error e
                | Except.ok _ =>
                    match from_value v with
                    | Except.error e => Except.error (JsonError.parseError e)
                    | Except.ok o => Except.ok o
        | none => Except.error JsonError.bodyAlreadyExtracted
  | none => Except.error JsonError.wrongContentType

mutual

/-- Fuel-indexed reading of the recursion of `check_null`: the same
computation, but every descent into a child value consumes one unit of
fuel, and the function answers `none` when the fuel runs out.  Used to
state that the recursion of `check_null` terminates within the depth of
the tree. -/
def check_null_fuel : Nat → Value → Option (Except JsonError Value)
  | 0, _ => none
  | _ + 1, Value.str s =>
      if strHasNul s then some (Except.error JsonError.nullPresent)
      else some (Except.ok (Value.str s))
  | n + 1, Value.arr a =>
      match check_null_fuel_list n a with
      | none => none
      | some (Except.error e) => some (Except.error e)
      | some (Except.ok _) => some (Except.ok (Value.arr a))
  | n + 1, Value.obj o =>
      match check_null_fuel_entries n o with
      | none => none
      | some (Except.error e) => some (Except.error e)
      | some (Except.ok _) => some (Except.ok (Value.obj o))
  | _ + 1, v => some (Except.ok v)

/-- Fuel-indexed reading of the `Value::Array` loop. -/
def check_null_fuel_list : Nat → List Value → Option (Except JsonError Unit)
  | _, [] => some (Except.ok ())
  | n, x :: xs =>
      match check_null_fuel n x with
      | none => none
      | some (Except.error e) => some (Except.error e)
      | some (Except.ok _) => check_null_fuel_list n xs

/-- Fuel-indexed reading of the `Value::Object` loop. -/
def check_null_fuel_entries :
    Nat → List (String × Value) → Option (Except JsonError Unit)
  | _, [] => some (Except.ok ())
  | n, (k, v) :: rest =>
      if strHasNul k then some (Except.error JsonError.nullPresent)
      else
        match check_null_fuel n v with
        | none => none
        | some (Except.error e) => some (Except.error e)
        | some (Except.ok _) => check_null_fuel_entries n rest

end

mutual

/-- Nesting depth of a JSON value: the number of levels of recursive
descent `check_null` performs on it. -/
def vdepth : Value → Nat
  | Value.arr a => ldepth a + 1
  | Value.obj o => edepth o + 1
  | _ => 1

/-- Largest depth of an element of the list. -/
def ldepth : List Value → Nat
  | [] => 0
  | x :: xs => max (vdepth x) (ldepth xs)

/-- Largest depth of a value of an entry list. -/
def edepth : List (String × Value) → Nat
  | [] => 0
  | (_, v) :: rest => max (vdepth v) (edepth rest)

end

/-- The NUL-free document of the `test_check_not_null` test. -/
def sampleClean : Value :=
  Value.obj
    [("name", Value.str "John Doe"),
     ("age", Value.num 43),
     ("phones", Value.arr [Value.str "+44 1234567", Value.str "+44 2345678"]),
     ("children",
      Value.arr
        [Value.obj [("name", Value.str "Sarah")],
         Value.obj [("name", Value.str "Bill")]])]

/-- A string value holding a single NUL code point. -/
def nulStr : Value := Value.str (String.mk [nulChar])

example : check_null (Value.str "ab") = Except.ok (Value.str "ab") := rfl
example : check_null (Value.str (String.mk [nulChar])) =
    Except.error JsonError.nullPresent := rfl
example : check_null (Value.arr [Value.null, Value.str (String.mk ['a', nulChar])]) =
    Except.error JsonError.nullPresent := rfl
example : nulAnywhere (Value.obj [(String.mk [nulChar], Value.null)]) = true := rfl

mutual

/-- If no string in the tree has a NUL, `check_null` returns the input
unchanged. -/
theorem check_null_ok_of_clean :
    ∀ v : Value, nulAnywhere v = false → check_null v = Except.ok v
  | Value.null, _ => rfl
  | Value.bool _, _ => rfl
  | Value.num _, _ => rfl
  | Value.str s, h => by
      have hs : strHasNul s = false := by simpa [nulAnywhere] using h
      simp [check_null, hs]
  | Value.arr a, h => by
      have ha : nulAnywhereList a = false := by simpa [nulAnywhere] using h
      have hl := check_null_list_ok_of_clean a ha
      simp [check_null, hl]
  | Value.obj o, h => by
      have ho : nulAnywhereEntries o = false := by simpa [nulAnywhere] using h
      have he := check_null_entries_ok_of_clean o ho
      simp [check_null, he]

/-- List version of `check_null_ok_of_clean`. -/
theorem check_null_list_ok_of_clean :
    ∀ l : List Value, nulAnywhereList l = false → check_null_list l = Except.ok ()
  | [], _ => rfl
  | x :: xs, h => by
      have h' : nulAnywhere x = false ∧ nulAnywhereList xs = false := by
        simpa [nulAnywhereList] using h
      have hx := check_null_ok_of_clean x h'.1
      have hxs := check_null_list_ok_of_clean xs h'.2
      simp [check_null_list, hx, hxs]

/-- Entry-list version of `check_null_ok_of_clean`. -/
theorem check_null_entries_ok_of_clean :
    ∀ l : List (String × Value), nulAnywhereEntries l = false →
      check_null_entries l = Except.ok ()
  | [], _ => rfl
  | (k, v) :: rest, h => by
      have h' : (strHasNul k = false ∧ nulAnywhere v = false) ∧
          nulAnywhereEntries rest = false := by
        simpa [nulAnywhereEntries] using h
      have hv := check_null_ok_of_clean v h'.1.2
      have hr := check_null_entries_ok_of_clean rest h'.2
      simp [check_null_entries, h'.1.1, hv, hr]

end

mutual

/-- If some string in the tree has a NUL, `check_null` fails with
`NullPresent`. -/
theorem check_null_err_of_nul :
    ∀ v : Value, nulAnywhere v = true →
      check_null v = Except.error JsonError.nullPresent
  | Value.str s, h => by
      have hs : strHasNul s = true := by simpa [nulAnywhere] using h
      simp [check_null, hs]
  | Value.arr a, h => by
      have ha : nulAnywhereList a = true := by simpa [nulAnywhere] using h
      have hl := check_null_list_err_of_nul a ha
      simp [check_null, hl]
  | Value.obj o, h => by
      have ho : nulAnywhereEntries o = true := by simpa [nulAnywhere] using h
      have he := check_null_entries_err_of_nul o ho
      simp [check_null, he]

/-- List version of `check_null_err_of_nul`. -/
theorem check_null_list_err_of_nul :
    ∀ l : List Value, nulAnywhereList l = true →
      check_null_list l = Except.error JsonError.nullPresent
  | x :: xs, h => by
      cases hx : nulAnywhere x with
      | true =>
          have := check_null_err_of_nul x hx
          simp [check_null_list, this]
      | false =>
          have hxs : nulAnywhereList xs = true := by
            simpa [nulAnywhereList, hx] using h
          have hok := check_null_ok_of_clean x hx
          have := check_null_list_err_of_nul xs hxs
          simp [check_null_list, hok, this]

/-- Entry-list version of `check_null_err_of_nul`. -/
theorem check_null_entries_err_of_nul :
    ∀ l : List (String × Value), nulAnywhereEntries l = true →
      check_null_entries l = Except.error JsonError.nullPresent
  | (k, v) :: rest, h => by
      cases hk : strHasNul k with
      | true => simp [check_null_entries, hk]
      | false =>
          cases hv : nulAnywhere v with
          | true =>
              have := check_null_err_of_nul v hv
              simp [check_null_entries, hk, this]
          | false =>
              have hr : nulAnywhereEntries rest = true := by
                simpa [nulAnywhereEntries, hk, hv] using h
              have hok := check_null_ok_of_clean v hv
              have := check_null_entries_err_of_nul rest hr
              simp [check_null_entries, hk, hok, this]

end

/-- `check_null` never answers anything but the unchanged input or the
`NullPresent` error. -/
theorem check_null_shape (v : Value) :
    check_null v = Except.ok v ∨
      check_null v = Except.error JsonError.nullPresent := by
  cases h : nulAnywhere v with
  | false => exact Or.inl (check_null_ok_of_clean v h)
  | true => exact Or.inr (check_null_err_of_nul v h)

mutual

/-- With at least `vdepth v` units of fuel, the fuel-indexed recursion
finishes and computes `check_null v`. -/
theorem check_null_fuel_complete :
    ∀ (n : Nat) (v : Value), vdepth v ≤ n →
      check_null_fuel n v = some (check_null v)
  | 0, v, h => absurd h (by cases v <;> simp [vdepth])
  | _ + 1, Value.null, _ => rfl
  | _ + 1, Value.bool _, _ => rfl
  | _ + 1, Value.num _, _ => rfl
  | _ + 1, Value.str s, _ => by
      cases hs : strHasNul s <;> simp [check_null_fuel, check_null, hs]
  | n + 1, Value.arr a, h => by
      have ha : ldepth a ≤ n := by
        have : ldepth a + 1 ≤ n + 1 := by simpa [vdepth] using h
        omega
      have hl := check_null_fuel_list_complete n a ha
      cases hcl : check_null_list a with
      | error e => simp [check_null_fuel, check_null, hl, hcl]
      | ok u => simp [check_null_fuel, check_null, hl, hcl]
  | n + 1, Value.obj o, h => by
      have ho : edepth o ≤ n := by
        have : edepth o + 1 ≤ n + 1 := by simpa [vdepth] using h
        omega
      have he := check_null_fuel_entries_complete n o ho
      cases hce : check_null_entries o with
      | error e => simp [check_null_fuel, check_null, he, hce]
      | ok u => simp [check_null_fuel, check_null, he, hce]

/-- List version of `check_null_fuel_complete`. -/
theorem check_null_fuel_list_complete :
    ∀ (n : Nat) (l : List Value), ldepth l ≤ n →
      check_null_fuel_list n l = some (check_null_list l)
  | _, [], _ => rfl
  | n, x :: xs, h => by
      have hb : max (vdepth x) (ldepth xs) ≤ n := by simpa [ldepth] using h
      have hx := check_null_fuel_complete n x (le_trans (le_max_left _ _) hb)
      have hxs :=
        check_null_fuel_list_complete n xs (le_trans (le_max_right _ _) hb)
      cases hcx : check_null x with
      | error e => simp [check_null_fuel_list, check_null_list, hx, hcx]
      | ok u => simp [check_null_fuel_list, check_null_list, hx, hcx, hxs]

/-- Entry-list version of `check_null_fuel_complete`. -/
theorem check_null_fuel_entries_complete :
    ∀ (n : Nat) (l : List (String × Value)), edepth l ≤ n →
      check_null_fuel_entries n l = some (check_null_entries l)
  | _, [], _ => rfl
  | n, (k, v) :: rest, h => by
      have hb : max (vdepth v) (edepth rest) ≤ n := by simpa [edepth] using h
      have hv := check_null_fuel_complete n v (le_trans (le_max_left _ _) hb)
      have hr :=
        check_null_fuel_entries_complete n rest (le_trans (le_max_right _ _) hb)
      cases hk : strHasNul k with
      | true => simp [check_null_fuel_entries, check_null_entries, hk]
      | false =>
          cases hcv : check_null v with
          | error e =>
              simp [check_null_fuel_entries, check_null_entries, hk, hv, hcv]
          | ok u =>
              simp [check_null_fuel_entries, check_null_entries, hk, hv, hcv, hr]

end

/-- With a good content type, `json_input` never answers
`WrongContentType`: every later stage produces a different variant. -/
theorem json_input_ct_ok_not_wrong {O : Type}
    (from_reader : ByteStream → Except ParseCause Value)
    (from_value : Value → Except ParseCause O) (req : Request) (h : String)
    (hct : req.contentType = some h)
    (hsw : starts_with h "application/json" = true) :
    json_input from_reader from_value req ≠
      Except.error JsonError.wrongContentType := by
  simp only [json_input, hct, hsw, Bool.not_true, Bool.false_eq_true,
    if_false]
  cases hd : req.data with
  | none => simp
  | some b =>
      cases hr : from_reader b with
      | error e => simp [hr]
      | ok v =>
          rcases check_null_shape v with hcv | hcv
          · cases hv : from_value v <;> simp [hr, hcv, hv]
          · simp [hr, hcv]

/-- C1: `check_null` fails with `NullPresent` if and only if some string in
the tree — a string value or an object key, at any nesting depth — contains
the NUL code point; the outcome depends only on whether such a NUL exists,
not on traversal order, and a NUL in an object key forces failure no matter
what the corresponding value holds. -/
theorem check_null_nullPresent_iff_nulAnywhere (v : Value) :
    check_null v = Except.error JsonError.nullPresent ↔
      nulAnywhere v = true := by
  constructor
  · intro hl
    cases hn : nulAnywhere v with
    | true => rfl
    | false =>
        rw [check_null_ok_of_clean v hn] at hl
        cases hl
  · exact check_null_err_of_nul v

/-- C2: on a tree in which no string value and no object key contains the
NUL code point, `check_null` succeeds and returns the input tree itself,
structurally unchanged. -/
theorem check_null_clean_returns_input (v : Value)
    (h : nulAnywhere v = false) : check_null v = Except.ok v :=
  check_null_ok_of_clean v h

/-- Witness for C2 at the NUL-free document of the repository's
`test_check_not_null` test. -/
theorem check_null_clean_returns_input_witness :
    nulAnywhere sampleClean = false ∧
      check_null sampleClean = Except.ok sampleClean :=
  ⟨rfl, check_null_clean_returns_input sampleClean rfl⟩

/-- C3: `json_input` fails with `WrongContentType` exactly when the
`Content-Type` header is absent or its value does not begin with the
literal, case-sensitive text `application/json`; any value with that
beginning — `application/json; charset=utf-8` or even
`application/jsonlines` — passes negotiation. -/
theorem json_input_wrongContentType_iff {O : Type}
    (from_reader : ByteStream → Except ParseCause Value)
    (from_value : Value → Except ParseCause O) (req : Request) :
    json_input from_reader from_value req =
        Except.error JsonError.wrongContentType ↔
      ∀ h, req.contentType = some h →
        starts_with h "application/json" = false := by
  cases hct : req.contentType with
  | none => simp [json_input, hct]
  | some h =>
      cases hsw : starts_with h "application/json" with
      | false => simp [json_input, hct, hsw]
      | true =>
          constructor
          · intro hl
            exact absurd hl
              (json_input_ct_ok_not_wrong from_reader from_value req h hct hsw)
          · intro hall
            rw [hall h rfl] at hsw
            cases hsw

/-- C4: stages run in a fixed order and the first failure wins: with a
bad content type the answer is `WrongContentType` whatever the body state
is (even already extracted), and when `check_null` rejects the parsed
tree the answer is `NullPresent` for every possible decoder — the typed
decode is never attempted. -/
theorem json_input_first_failure_wins :
    (∀ (O : Type) (from_reader : ByteStream → Except ParseCause Value)
        (from_value : Value → Except ParseCause O) (ct : String)
        (d : Option ByteStream),
        starts_with ct "application/json" = false →
        json_input from_reader from_value
            { contentType := some ct, data := d } =
          Except.error JsonError.wrongContentType) ∧
    (∀ (O : Type) (from_reader : ByteStream → Except ParseCause Value)
        (from_value : Value → Except ParseCause O) (req : Request)
        (ct : String) (b : ByteStream) (v : Value),
        req.contentType = some ct →
        starts_with ct "application/json" = true →
        req.data = some b →
        from_reader b = Except.ok v →
        check_null v = Except.error JsonError.nullPresent →
        json_input from_reader from_value req =
          Except.error JsonError.nullPresent) := by
  constructor
  · intro O from_reader from_value ct d hsw
    simp [json_input, hsw]
  · intro O from_reader from_value req ct b v hct hsw hd hfr hcn
    simp [json_input, hct, hsw, hd, hfr, hcn]

/-- Witness for C4: a `text/plain` request with an already-extracted body
is answered `WrongContentType`, and a well-negotiated request whose body
parses to a NUL-holding string is answered `NullPresent`. -/
theorem json_input_first_failure_wins_witness :
    json_input (fun _ => Except.ok Value.null) (fun _ => Except.ok Value.null)
        { contentType := some "text/plain", data := none } =
      Except.error JsonError.wrongContentType ∧
    json_input (fun _ => Except.ok nulStr) (fun _ => Except.ok Value.null)
        { contentType := some "application/json", data := some [] } =
      Except.error JsonError.nullPresent :=
  ⟨json_input_first_failure_wins.1 Value (fun _ => Except.ok Value.null)
      (fun _ => Except.ok Value.null) "text/plain" none rfl,
   json_input_first_failure_wins.2 Value (fun _ => Except.ok nulStr)
      (fun _ => Except.ok Value.null)
      { contentType := some "application/json", data := some [] }
      "application/json" [] nulStr rfl rfl rfl rfl rfl⟩

/-- C5: on an object, `check_null` handles the entries in document order,
and within one entry it checks the key before recursing into the value:
a key with a NUL fails immediately — whatever the value holds, it is
never visited — and a clean key leads to the value and then the rest. -/
theorem check_null_obj_key_before_value :
    (∀ (k : String) (v : Value) (rest : List (String × Value)),
        strHasNul k = true →
        check_null (Value.obj ((k, v) :: rest)) =
          Except.error JsonError.nullPresent) ∧
    (∀ (k : String) (v : Value) (rest : List (String × Value)),
        strHasNul k = false →
        check_null_entries ((k, v) :: rest) =
          match check_null v with
          | Except.error e => Except.error e
          | Except.ok _ => check_null_entries rest) := by
  constructor
  · intro k v rest hk
    simp [check_null, check_null_entries, hk]
  · intro k v rest hk
    simp [check_null_entries, hk]

/-- Witness for C5: a NUL key fails with `NullPresent` even though its
value also holds a NUL, and with a clean key the entry loop is the
key-then-value-then-rest computation. -/
theorem check_null_obj_key_before_value_witness :
    check_null (Value.obj [(String.mk [nulChar], nulStr)]) =
        Except.error JsonError.nullPresent ∧
    check_null_entries [("a", Value.null)] =
      match check_null Value.null with
      | Except.error e => Except.error e
      | Except.ok _ => check_null_entries [] :=
  ⟨check_null_obj_key_before_value.1 (String.mk [nulChar]) nulStr [] rfl,
   check_null_obj_key_before_value.2 "a" Value.null [] rfl⟩

/-- C6: once the content type passes negotiation, a request whose body was
already taken (the body lookup yields nothing) is answered
`BodyAlreadyExtracted`; in particular, running the pipeline on the request
state left behind by a body extraction always yields this error. -/
theorem json_input_body_already_extracted {O : Type}
    (from_reader : ByteStream → Except ParseCause Value)
    (from_value : Value → Except ParseCause O) (req : Request) (ct : String)
    (h1 : req.contentType = some ct)
    (h2 : starts_with ct "application/json" = true) :
    (req.data = none →
      json_input from_reader from_value req =
        Except.error JsonError.bodyAlreadyExtracted) ∧
    json_input from_reader from_value (take_body req).2 =
      Except.error JsonError.bodyAlreadyExtracted := by
  constructor
  · intro hd
    simp [json_input, h1, h2, hd]
  · simp [json_input, take_body, h1, h2]

/-- Witness for C6: an extracted-body JSON request is refused, and so is
the second attempt after a successful extraction. -/
theorem json_input_body_already_extracted_witness :
    json_input (fun _ => Except.ok Value.null) (fun _ => Except.ok Value.null)
        { contentType := some "application/json", data := none } =
      Except.error JsonError.bodyAlreadyExtracted ∧
    json_input (fun _ => Except.ok Value.null) (fun _ => Except.ok Value.null)
        (take_body { contentType := some "application/json", data := some [] }).2 =
      Except.error JsonError.bodyAlreadyExtracted :=
  ⟨(json_input_body_already_extracted (fun _ => Except.ok Value.null)
      (fun _ => Except.ok Value.null)
      { contentType := some "application/json", data := none }
      "application/json" rfl rfl).1 rfl,
   (json_input_body_already_extracted (fun _ => Except.ok Value.null)
      (fun _ => Except.ok Value.null)
      { contentType := some "application/json", data := some [] }
      "application/json" rfl rfl).2⟩

/-- C7: when the parsed tree passes `check_null` but the schema-driven
decode into the target type fails with cause `e`, `json_input` reports
`ParseError e` — the decoder's own error, wrapped. -/
theorem json_input_decode_failure_parseError {O : Type}
    (from_reader : ByteStream → Except ParseCause Value)
    (from_value : Value → Except ParseCause O) (req : Request) (ct : String)
    (b : ByteStream) (v : Value) (e : ParseCause)
    (h1 : req.contentType = some ct)
    (h2 : starts_with ct "application/json" = true)
    (h3 : req.data = some b) (h4 : from_reader b = Except.ok v)
    (h5 : check_null v = Except.ok v) (h6 : from_value v = Except.error e) :
    json_input from_reader from_value req =
      Except.error (JsonError.parseError e) := by
  simp [json_input, h1, h2, h3, h4, h5, h6]

/-- Witness for C7: a decoder refusing `null` with a missing-field cause
makes the pipeline answer `ParseError` with that very cause. -/
theorem json_input_decode_failure_parseError_witness :
    json_input (fun _ => Except.ok Value.null)
        (fun _ => (Except.error "missing field" : Except ParseCause Value))
        { contentType := some "application/json", data := some [] } =
      Except.error (JsonError.parseError "missing field") :=
  json_input_decode_failure_parseError (fun _ => Except.ok Value.null)
    (fun _ => Except.error "missing field")
    { contentType := some "application/json", data := some [] }
    "application/json" [] Value.null "missing field" rfl rfl rfl rfl rfl rfl

/-- C8: `check_null` answers either the unchanged input or the error
`NullPresent`; no other error variant — `WrongContentType`,
`BodyAlreadyExtracted`, `IoError` or `ParseError` — can come out of it. -/
theorem check_null_only_ok_or_nullPresent (v : Value) :
    check_null v = Except.ok v ∨
      check_null v = Except.error JsonError.nullPresent :=
  check_null_shape v

/-- C9: the recursion of `check_null` is structural, so it terminates on
every finite tree: the fuel-indexed reading of the very same recursion
finishes — never runs out of fuel — once it is given the nesting depth of
the tree, and computes `check_null`. -/
theorem check_null_terminates_within_depth (v : Value) :
    check_null_fuel (vdepth v) v = some (check_null v) :=
  check_null_fuel_complete (vdepth v) v (Nat.le_refl _)

/-- C10: `json_input` is deterministic: two requests with the same
observable state — the same `Content-Type` lookup answer and the same
body-stream state and bytes — get the very same answer from the same
collaborators. -/
theorem json_input_deterministic {O : Type}
    (from_reader : ByteStream → Except ParseCause Value)
    (from_value : Value → Except ParseCause O) (r1 r2 : Request)
    (h1 : r1.contentType = r2.contentType) (h2 : r1.data = r2.data) :
    json_input from_reader from_value r1 =
      json_input from_reader from_value r2 := by
  have : r1 = r2 := by
    cases r1
    cases r2
    simp_all
  rw [this]

/-- Witness for C10 at two requests built with the same observable
state. -/
theorem json_input_deterministic_witness :
    json_input (fun _ => Except.ok Value.null) (fun _ => Except.ok Value.null)
        { contentType := some "application/json", data := some [0] } =
      json_input (fun _ => Except.ok Value.null)
        (fun _ => Except.ok Value.null)
        { contentType := some ("application/" ++ "json"),
          data := some [0] } :=
  json_input_deterministic (fun _ => Except.ok Value.null)
    (fun _ => Except.ok Value.null)
    { contentType := some "application/json", data := some [0] }
    { contentType := some ("application/" ++ "json"), data := some [0] }
    rfl rfl

end RouilleJson
